import Mathlib

set_option maxHeartbeats 1000000

/-!
Shallow embedding of `src/main.c` of the Infineon CE240774 "RTC basics"
code example, together with proofs about its calendar validation,
week-of-month computation, and DST configuration state machine.

Machine integers (`uint32_t`) are modelled as `Nat`: every arithmetic
operation performed by the embedded code (comparisons, `%`, `/`, bounded
additions) agrees with the C semantics on the `uint32_t` range, and no
operation can overflow on the values involved.
-/

namespace RtcBasics

/-! ### Constants (macro section of main.c) -/

def MAX_SEC_OR_MIN : Nat := 60

def MAX_HOURS_24H : Nat := 23

def MONTHS_PER_YEAR : Nat := 12

def MIN_SPACE_KEY_COUNT_NEW_TIME : Nat := 5

def MIN_SPACE_KEY_COUNT_DST_TIME : Nat := 3

def RTC_CMD_ENABLE_DST : Char := '1'

def RTC_CMD_DISABLE_DST : Char := '2'

def RTC_CMD_QUIT_CONFIG_DST : Char := '3'

def FIXED_DST_FORMAT : Char := '1'

def RELATIVE_DST_FORMAT : Char := '2'

def DST_DISABLED_FLAG : Nat := 0

def DST_VALID_START_TIME_FLAG : Nat := 1

def DST_VALID_END_TIME_FLAG : Nat := 2

def DST_ENABLED_FLAG : Nat := 3

/-! ### Validation macros (main.c lines 110-127) -/

def IS_SEC_VALID (sec : Nat) : Bool := decide (sec ≤ MAX_SEC_OR_MIN)

def IS_MIN_VALID (min : Nat) : Bool := decide (min ≤ MAX_SEC_OR_MIN)

def IS_HOUR_VALID (hour : Nat) : Bool := decide (hour ≤ MAX_HOURS_24H)

def IS_MONTH_VALID (month : Nat) : Bool :=
  decide (0 < month) && decide (month ≤ MONTHS_PER_YEAR)

def IS_YEAR_VALID (year : Nat) : Bool := decide (0 < year)

def IS_LEAP_YEAR (year : Nat) : Bool :=
  (year % 4 == 0 && !(year % 100 == 0)) || (year % 400 == 0)

/-! ### Calendar validator (main.c `validate_date_time`, lines 756-794) -/

/-- The `days_in_month_table` local of `validate_date_time`. -/
def days_in_month_table : List Nat :=
  [31, 28, 31, 30, 31, 30, 31, 31, 30, 31, 30, 31]

/-- The conjunction of range checks computed into the local `rslt` of
`validate_date_time` before the day-of-month check (main.c lines 777-779). -/
def validate_range_checks (sec min hour month year : Nat) : Bool :=
  IS_SEC_VALID sec && IS_MIN_VALID min && IS_HOUR_VALID hour &&
  IS_MONTH_VALID month && IS_YEAR_VALID year

/-- Embedding of `validate_date_time` (main.c lines 756-794).  The table is
read (at index `month - 1`) only under the guard `rslt`, exactly as in the
source; `List.getD` supplies an irrelevant default outside that guard. -/
def validate_date_time (sec min hour mday month year : Nat) : Bool :=
  let rslt := validate_range_checks sec min hour month year
  if rslt then
    let days_in_month := days_in_month_table.getD (month - 1) 0
    let days_in_month :=
      if IS_LEAP_YEAR year && month == 2 then days_in_month + 1
      else days_in_month
    rslt && (decide (0 < mday) && decide (mday ≤ days_in_month))
  else
    rslt

/-- Month length as the specification words it: the fixed table entry for
`month`, incremented by one when `month` is February and the leap-year
predicate holds for `year`. -/
def spec_month_length (month year : Nat) : Nat :=
  days_in_month_table.getD (month - 1) 0 +
    (if IS_LEAP_YEAR year = true ∧ month = 2 then 1 else 0)

/-! ### Week-of-month resolver (main.c `get_week_of_month`, lines 722-734) -/

/-- The `while (day > weekend_day)` loop of `get_week_of_month`. -/
def week_loop (day weekend_day count : Nat) : Nat :=
  if day > weekend_day then week_loop day (weekend_day + 7) (count + 1)
  else count
termination_by day - weekend_day
decreasing_by omega

/-- Embedding of `get_week_of_month` (main.c lines 722-734), parameterised
by the external day-of-week collaborator `Cy_RTC_ConvertDayOfWeek`
(argument `dow`, called on day 1 of the given month/year). -/
def get_week_of_month (dow : Nat → Nat → Nat → Nat)
    (day month year : Nat) : Nat :=
  let day_of_week := dow 1 month year
  let weekend_day := 8 - day_of_week
  week_loop day weekend_day 1

/-! ### Helper lemmas about the validator and the week loop -/

theorem validate_range_checks_iff (sec min hour month year : Nat) :
    validate_range_checks sec min hour month year = true ↔
      (sec ≤ 60 ∧ min ≤ 60 ∧ hour ≤ 23 ∧ 0 < month ∧ month ≤ 12 ∧
       0 < year) := by
  simp [validate_range_checks, IS_SEC_VALID, IS_MIN_VALID, IS_HOUR_VALID,
        IS_MONTH_VALID, IS_YEAR_VALID, MAX_SEC_OR_MIN, MAX_HOURS_24H,
        MONTHS_PER_YEAR, Bool.and_eq_true, decide_eq_true_eq, and_assoc]

theorem validate_date_time_eq_of_checks (sec min hour mday month year : Nat)
    (h : validate_range_checks sec min hour month year = true) :
    validate_date_time sec min hour mday month year =
      (decide (0 < mday) &&
       decide (mday ≤ (if IS_LEAP_YEAR year && month == 2 then
                         days_in_month_table.getD (month - 1) 0 + 1
                       else days_in_month_table.getD (month - 1) 0))) := by
  simp only [validate_date_time, h, if_true, Bool.true_and]

theorem validate_date_time_false_of_checks (sec min hour mday month year : Nat)
    (h : validate_range_checks sec min hour month year = false) :
    validate_date_time sec min hour mday month year = false := by
  simp only [validate_date_time, h, if_false, Bool.false_eq_true]

theorem spec_month_length_eq (month year : Nat) :
    spec_month_length month year =
      (if IS_LEAP_YEAR year && month == 2 then
         days_in_month_table.getD (month - 1) 0 + 1
       else days_in_month_table.getD (month - 1) 0) := by
  by_cases hl : (IS_LEAP_YEAR year && month == 2) = true
  · have hl' : IS_LEAP_YEAR year = true ∧ month = 2 := by
      simpa [Bool.and_eq_true, beq_iff_eq] using hl
    simp [spec_month_length, hl, hl']
  · have hl' : ¬ (IS_LEAP_YEAR year = true ∧ month = 2) := by
      simpa [Bool.and_eq_true, beq_iff_eq] using hl
    simp [spec_month_length, hl, hl']

/-- Closed form for the `while` loop of `get_week_of_month`: starting at
`count = c` and threshold `wd`, the loop returns `c` when `day ≤ wd` and
otherwise iterates once per crossed threshold, 7 apart. -/
theorem week_loop_closed (k : Nat) : ∀ day wd c : Nat, day - wd ≤ k →
    week_loop day wd c =
      if wd < day then c + (day - wd + 6) / 7 else c := by
  induction k with
  | zero =>
    intro day wd c h
    have hle : ¬ wd < day := by omega
    rw [week_loop]
    simp [hle]
  | succ k ih =>
    intro day wd c h
    rw [week_loop]
    by_cases hgt : wd < day
    · simp only [hgt, if_pos, gt_iff_lt, if_true]
      rw [ih day (wd + 7) (c + 1) (by omega)]
      by_cases h7 : wd + 7 < day
      · simp only [h7, if_true]
        omega
      · simp only [h7, if_false]
        omega
    · simp [hgt]

theorem get_week_of_month_closed (dow : Nat → Nat → Nat → Nat)
    (day month year : Nat) :
    get_week_of_month dow day month year =
      (if 8 - dow 1 month year < day then
         1 + (day - (8 - dow 1 month year) + 6) / 7
       else 1) := by
  unfold get_week_of_month
  exact week_loop_closed (day - (8 - dow 1 month year)) day
    (8 - dow 1 month year) 1 (Nat.le_refl _)

/-! ### DST data structures (PDL types used by main.c) -/

/-- `cy_en_rtc_dst_format_t` of the PDL: the DST rule format selector. -/
inductive cy_en_rtc_dst_format_t where
  | CY_RTC_DST_FIXED
  | CY_RTC_DST_RELATIVE
deriving DecidableEq

/-- `cy_stc_rtc_dst_format_t` of the PDL: a single DST rule point, as
written by `set_dst_feature`. -/
structure cy_stc_rtc_dst_format_t where
  format : cy_en_rtc_dst_format_t
  hour : Nat
  dayOfMonth : Nat
  weekOfMonth : Nat
  dayOfWeek : Nat
  month : Nat
deriving DecidableEq

/-- `cy_stc_rtc_dst_t` of the PDL: start and stop DST rule points
(the global `dst_time` of main.c). -/
structure cy_stc_rtc_dst_t where
  startDst : cy_stc_rtc_dst_format_t
  stopDst : cy_stc_rtc_dst_format_t
deriving DecidableEq

/-! ### Environment model of the UART and RTC collaborators

`set_dst_feature` and `set_new_time` interact with the UART (via
`get_character` / `fetch_time_data`) and the RTC driver (via
`Cy_RTC_EnableDstTime` / `Cy_RTC_SetDateAndTimeDirect`).  Those
collaborators are outside `src/`; the environment records the outcome of
each such call: a `get_character` call either times out
(`CY_SCB_UART_BAD_PARAM`) or yields a byte, a `fetch_time_data` call
either times out or yields a buffer summarised by its space count and the
fields `sscanf` extracts from it, and a driver commit either succeeds
(`CY_RSLT_SUCCESS`) or fails. -/

/-- Result of one `get_character` call: timeout or a received byte. -/
inductive UartResult where
  | timeout
  | ok (c : Char)

/-- Result of one `fetch_time_data` call in the DST flow, summarised by
the reported space count and the four fields `sscanf` parses from the
buffer (`hour`, `mday`, `month`, `year`). -/
inductive DstFetch where
  | timeout
  | ok (space_count hour mday month year : Nat)

/-- Result of one `fetch_time_data` call in the set-time flow, summarised
by the space count and the six fields `sscanf` parses from the buffer
(`hour`, `min`, `sec`, `mday`, `month`, `year`). -/
inductive TimeFetch where
  | timeout
  | ok (space_count hour min sec mday month year : Nat)

/-- The collaborator responses consumed by one `set_dst_feature` call. -/
structure DstEnv where
  dst_cmd : UartResult
  fmt : UartResult
  start_fetch : DstFetch
  end_fetch : DstFetch
  enable_dst_ok : Bool
  convertDayOfWeek : Nat → Nat → Nat → Nat

/-- The persistent state `set_dst_feature` reads and writes: the static
`dst_data_flag` and the global `dst_time`. -/
structure DstState where
  dst_data_flag : Nat
  dst_time : cy_stc_rtc_dst_t
deriving DecidableEq

/-- Observable outcome of one `set_dst_feature` call: the new persistent
state, the schedule passed to `Cy_RTC_EnableDstTime` (if it was called),
and whether `handle_error` was invoked. -/
structure DstOutcome where
  dst_data_flag : Nat
  dst_time : cy_stc_rtc_dst_t
  committed : Option cy_stc_rtc_dst_t
  fatal : Bool
deriving DecidableEq

/-! ### DST state machine (main.c `set_dst_feature`, lines 365-577) -/

/-- Construction of one DST rule point from validated fields (main.c
lines 437-449 for the start rule, 491-503 for the end rule). -/
def build_dst_rule (dow : Nat → Nat → Nat → Nat) (fmt : Char)
    (hour mday month year : Nat) : cy_stc_rtc_dst_format_t :=
  { format := if fmt == FIXED_DST_FORMAT then .CY_RTC_DST_FIXED
              else .CY_RTC_DST_RELATIVE
  , hour := hour
  , month := month
  , dayOfWeek := if fmt == FIXED_DST_FORMAT then 1 else dow mday month year
  , dayOfMonth := if fmt == FIXED_DST_FORMAT then mday else 1
  , weekOfMonth := if fmt == FIXED_DST_FORMAT then 1
                   else get_week_of_month dow mday month year }

/-- Start-time phase of the enable flow (main.c lines 417-464). -/
def dst_enable_start_phase (dow : Nat → Nat → Nat → Nat) (fmt : Char)
    (f : DstFetch) (s : DstState) : DstState :=
  match f with
  | .timeout => s
  | .ok space_count hour mday month year =>
    if space_count ≠ MIN_SPACE_KEY_COUNT_DST_TIME then s
    else if validate_date_time 0 0 hour mday month year &&
            (fmt == FIXED_DST_FORMAT || fmt == RELATIVE_DST_FORMAT) then
      { dst_data_flag := DST_VALID_START_TIME_FLAG
      , dst_time := { s.dst_time with
                      startDst := build_dst_rule dow fmt hour mday month year } }
    else s

/-- End-time phase of the enable flow (main.c lines 466-519), guarded by
`DST_VALID_START_TIME_FLAG == dst_data_flag`. -/
def dst_enable_end_phase (dow : Nat → Nat → Nat → Nat) (fmt : Char)
    (f : DstFetch) (s : DstState) : DstState :=
  if s.dst_data_flag == DST_VALID_START_TIME_FLAG then
    match f with
    | .timeout => s
    | .ok space_count hour mday month year =>
      if space_count ≠ MIN_SPACE_KEY_COUNT_DST_TIME then s
      else if validate_date_time 0 0 hour mday month year &&
              (fmt == FIXED_DST_FORMAT || fmt == RELATIVE_DST_FORMAT) then
        { dst_data_flag := DST_VALID_END_TIME_FLAG
        , dst_time := { s.dst_time with
                        stopDst := build_dst_rule dow fmt hour mday month year } }
      else s
  else s

/-- Commit phase of the enable flow (main.c lines 521-536), guarded by
`DST_VALID_END_TIME_FLAG == dst_data_flag`; a failed
`Cy_RTC_EnableDstTime` call reaches `handle_error`. -/
def dst_commit_phase (enable_dst_ok : Bool) (s : DstState) : DstOutcome :=
  if s.dst_data_flag == DST_VALID_END_TIME_FLAG then
    if enable_dst_ok then
      { dst_data_flag := DST_ENABLED_FLAG, dst_time := s.dst_time
      , committed := some s.dst_time, fatal := false }
    else
      { dst_data_flag := s.dst_data_flag, dst_time := s.dst_time
      , committed := some s.dst_time, fatal := true }
  else
    { dst_data_flag := s.dst_data_flag, dst_time := s.dst_time
    , committed := none, fatal := false }

/-- The canonical "null" DST rule point the disable branch writes into
both rule points (main.c lines 546-552). -/
def null_dst_rule : cy_stc_rtc_dst_format_t :=
  { format := .CY_RTC_DST_FIXED, hour := 0, month := 1
  , dayOfWeek := 1, dayOfMonth := 1, weekOfMonth := 1 }

/-- The canonical "null" DST schedule (both rule points null). -/
def null_dst_time : cy_stc_rtc_dst_t :=
  { startDst := null_dst_rule, stopDst := null_dst_rule }

/-- Disable branch of `set_dst_feature` (main.c lines 543-567). -/
def dst_disable_branch (enable_dst_ok : Bool) (s : DstState) : DstOutcome :=
  if enable_dst_ok then
    { dst_data_flag := DST_DISABLED_FLAG, dst_time := null_dst_time
    , committed := some null_dst_time, fatal := false }
  else
    { dst_data_flag := s.dst_data_flag, dst_time := null_dst_time
    , committed := some null_dst_time, fatal := true }

/-- Outcome when nothing relevant happens: state unchanged, no commit. -/
def dst_no_change (s : DstState) : DstOutcome :=
  { dst_data_flag := s.dst_data_flag, dst_time := s.dst_time
  , committed := none, fatal := false }

/-- Embedding of `set_dst_feature` (main.c lines 365-577).  Status
printing has no effect on the modelled state and is omitted. -/
def set_dst_feature (env : DstEnv) (s : DstState) : DstOutcome :=
  match env.dst_cmd with
  | .timeout => dst_no_change s
  | .ok dst_cmd =>
    if dst_cmd == RTC_CMD_ENABLE_DST then
      match env.fmt with
      | .timeout => dst_no_change s
      | .ok fmt =>
        dst_commit_phase env.enable_dst_ok
          (dst_enable_end_phase env.convertDayOfWeek fmt env.end_fetch
            (dst_enable_start_phase env.convertDayOfWeek fmt
              env.start_fetch s))
    else if dst_cmd == RTC_CMD_DISABLE_DST then
      dst_disable_branch env.enable_dst_ok s
    else
      dst_no_change s

/-! ### Set-time flow (main.c `set_new_time`, lines 592-639) -/

/-- The collaborator responses consumed by one `set_new_time` call. -/
structure SetTimeEnv where
  fetch : TimeFetch
  set_time_ok : Bool

/-- Observable outcome of one `set_new_time` call: the arguments passed
to `Cy_RTC_SetDateAndTimeDirect` (if it was called), the new value of the
global `century_data`, whether the invalid-values message was printed,
and whether `handle_error` was invoked. -/
structure SetTimeOutcome where
  committed : Option (Nat × Nat × Nat × Nat × Nat × Nat)
  century_data : Nat
  printed_invalid : Bool
  fatal : Bool
deriving DecidableEq

/-- Embedding of `set_new_time` (main.c lines 592-639).  Note that the
source updates `century_data` unconditionally after the commit call and
has no failure branch for `Cy_RTC_SetDateAndTimeDirect`: on driver
failure only the success message is skipped. -/
def set_new_time (env : SetTimeEnv) (century_data : Nat) : SetTimeOutcome :=
  match env.fetch with
  | .timeout =>
    { committed := none, century_data := century_data
    , printed_invalid := false, fatal := false }
  | .ok space_count hour min sec mday month year =>
    if space_count ≠ MIN_SPACE_KEY_COUNT_NEW_TIME then
      { committed := none, century_data := century_data
      , printed_invalid := true, fatal := false }
    else if validate_date_time sec min hour mday month year then
      { committed := some (sec, min, hour, mday, month, year % 100)
      , century_data := (year / 100) * 100
      , printed_invalid := false, fatal := false }
    else
      { committed := none, century_data := century_data
      , printed_invalid := true, fatal := false }

/-- Start-phase rejection predicate: true exactly when the start-time
phase of the enable flow leaves the state untouched (timeout, wrong
separator count, or failed validation / bad format selector). -/
def dst_start_rejected (fmt : Char) (f : DstFetch) : Bool :=
  match f with
  | .timeout => true
  | .ok space_count hour mday month year =>
    decide (space_count ≠ MIN_SPACE_KEY_COUNT_DST_TIME) ||
    !(validate_date_time 0 0 hour mday month year &&
      (fmt == FIXED_DST_FORMAT || fmt == RELATIVE_DST_FORMAT))

theorem dst_enable_start_phase_of_rejected (dow : Nat → Nat → Nat → Nat)
    (fmt : Char) (f : DstFetch) (s : DstState)
    (h : dst_start_rejected fmt f = true) :
    dst_enable_start_phase dow fmt f s = s := by
  cases f with
  | timeout => rfl
  | ok sc hour mday month year =>
    simp only [dst_start_rejected, Bool.or_eq_true, decide_eq_true_eq,
               Bool.not_eq_true'] at h
    rcases h with h | h
    · simp [dst_enable_start_phase, h]
    · by_cases hsc : sc ≠ MIN_SPACE_KEY_COUNT_DST_TIME
      · simp [dst_enable_start_phase, hsc]
      · simp [dst_enable_start_phase, hsc, h]

theorem dst_enable_end_phase_timeout (dow : Nat → Nat → Nat → Nat)
    (fmt : Char) (s : DstState) :
    dst_enable_end_phase dow fmt DstFetch.timeout s = s := by
  unfold dst_enable_end_phase
  split <;> rfl

theorem enable_beq_self : (RTC_CMD_ENABLE_DST == RTC_CMD_ENABLE_DST) = true := by
  decide

theorem disable_beq_self :
    (RTC_CMD_DISABLE_DST == RTC_CMD_DISABLE_DST) = true := by decide

theorem disable_ne_enable :
    (RTC_CMD_DISABLE_DST == RTC_CMD_ENABLE_DST) = false := by decide

/-! ### Claim theorems -/

/-- Claim C1: `validate_date_time` accepts a tuple exactly when `sec ≤ 60`,
`min ≤ 60`, `hour ≤ 23`, `month ∈ [1,12]`, `year > 0` and `mday` lies in
`[1, N]` with `N` the month-length table entry adjusted for a leap-year
February; in particular the inclusive boundary `sec = min = 60` is
accepted. -/
theorem validate_date_time_spec :
    (∀ sec min hour mday month year : Nat,
      validate_date_time sec min hour mday month year = true ↔
        (sec ≤ 60 ∧ min ≤ 60 ∧ hour ≤ 23 ∧ 1 ≤ month ∧ month ≤ 12 ∧
         0 < year ∧ 1 ≤ mday ∧ mday ≤ spec_month_length month year)) ∧
    validate_date_time 60 60 23 15 6 2025 = true := by
  refine ⟨fun sec min hour mday month year => ?_, by decide⟩
  by_cases hg : validate_range_checks sec min hour month year = true
  · rw [validate_date_time_eq_of_checks _ _ _ _ _ _ hg, ← spec_month_length_eq]
    have h6 := (validate_range_checks_iff sec min hour month year).mp hg
    simp only [Bool.and_eq_true, decide_eq_true_eq]
    constructor
    · rintro ⟨h1, h2⟩
      exact ⟨h6.1, h6.2.1, h6.2.2.1, h6.2.2.2.1, h6.2.2.2.2.1,
             h6.2.2.2.2.2, h1, h2⟩
    · rintro ⟨_, _, _, _, _, _, h1, h2⟩
      exact ⟨h1, h2⟩
  · have hg' : validate_range_checks sec min hour month year = false := by
      simpa using hg
    rw [validate_date_time_false_of_checks _ _ _ _ _ _ hg']
    simp only [Bool.false_eq_true, false_iff]
    intro hc
    exact hg ((validate_range_checks_iff sec min hour month year).mpr
      ⟨hc.1, hc.2.1, hc.2.2.1, hc.2.2.2.1, hc.2.2.2.2.1, hc.2.2.2.2.2.1⟩)

/-- Claim C7: the leap-year predicate holds for 2000 and 2024 and fails
for 1900 and 2023, so the validator accepts 29 Feb 2024 and rejects
29 Feb 2023 (all other fields in range). -/
theorem leap_year_and_february_examples :
    IS_LEAP_YEAR 2000 = true ∧ IS_LEAP_YEAR 2024 = true ∧
    IS_LEAP_YEAR 1900 = false ∧ IS_LEAP_YEAR 2023 = false ∧
    validate_date_time 0 0 0 29 2 2024 = true ∧
    validate_date_time 0 0 0 29 2 2023 = false := by decide

/-- Claim C9: whenever the range-check guard of `validate_date_time`
holds, `month` lies in `[1,12]` and the table index `month - 1` is within
the 12-entry month-length table; the day-of-month check (the only table
read) runs only under that guard. -/
theorem month_table_access_in_bounds (sec min hour month year : Nat)
    (h : validate_range_checks sec min hour month year = true) :
    0 < month ∧ month ≤ 12 ∧ month - 1 < days_in_month_table.length := by
  obtain ⟨-, -, -, h4, h5, -⟩ :=
    (validate_range_checks_iff sec min hour month year).mp h
  refine ⟨h4, h5, ?_⟩
  simp only [days_in_month_table, List.length]
  omega

/-- Witness for the claim C9 theorem at a concrete valid input. -/
theorem month_table_access_in_bounds_witness :
    validate_range_checks 0 0 0 1 2024 = true ∧
    (0 < 1 ∧ 1 ≤ 12 ∧ 1 - 1 < days_in_month_table.length) :=
  ⟨by decide, month_table_access_in_bounds 0 0 0 1 2024 (by decide)⟩

/-- Claim C6 (code bug): for day 31 of a month whose first day falls on
the collaborator weekday index 7 (as 1 March 2025, a Saturday, does under
the PDL convention), `get_week_of_month` returns 6, outside the range
`[1,5]` documented in its own header comment. -/
theorem get_week_of_month_exceeds_five :
    get_week_of_month (fun _ _ _ => 7) 31 3 2025 = 6 ∧
    ¬ get_week_of_month (fun _ _ _ => 7) 31 3 2025 ≤ 5 := by
  rw [get_week_of_month_closed]
  norm_num

/-- Claim C2: from the Disabled state, an enable flow with a valid format
selector, a valid 3-separator start input and a valid 3-separator end
input commits the built schedule and ends Active when the commit
succeeds; a failed final commit reaches `handle_error`. -/
theorem dst_enable_flow_spec (env : DstEnv) (s : DstState) (f : Char)
    (sh sd sm sy eh ed em ey : Nat)
    (_hflag : s.dst_data_flag = DST_DISABLED_FLAG)
    (hcmd : env.dst_cmd = UartResult.ok RTC_CMD_ENABLE_DST)
    (hfmt : env.fmt = UartResult.ok f)
    (hf : f = FIXED_DST_FORMAT ∨ f = RELATIVE_DST_FORMAT)
    (hstart : env.start_fetch =
      DstFetch.ok MIN_SPACE_KEY_COUNT_DST_TIME sh sd sm sy)
    (hsv : validate_date_time 0 0 sh sd sm sy = true)
    (hend : env.end_fetch =
      DstFetch.ok MIN_SPACE_KEY_COUNT_DST_TIME eh ed em ey)
    (hev : validate_date_time 0 0 eh ed em ey = true) :
    (env.enable_dst_ok = true →
      (set_dst_feature env s).dst_data_flag = DST_ENABLED_FLAG ∧
      (set_dst_feature env s).committed =
        some { startDst := build_dst_rule env.convertDayOfWeek f sh sd sm sy
             , stopDst := build_dst_rule env.convertDayOfWeek f eh ed em ey }) ∧
    (env.enable_dst_ok = false → (set_dst_feature env s).fatal = true) := by
  have hfb : (f == FIXED_DST_FORMAT || f == RELATIVE_DST_FORMAT) = true := by
    rcases hf with h | h <;> simp [h]
  have hmain : set_dst_feature env s =
      dst_commit_phase env.enable_dst_ok
        (dst_enable_end_phase env.convertDayOfWeek f env.end_fetch
          (dst_enable_start_phase env.convertDayOfWeek f env.start_fetch s)) := by
    simp only [set_dst_feature, hcmd, hfmt, enable_beq_self, if_true]
  have hs1 : dst_enable_start_phase env.convertDayOfWeek f env.start_fetch s =
      { dst_data_flag := DST_VALID_START_TIME_FLAG
      , dst_time := { s.dst_time with
          startDst := build_dst_rule env.convertDayOfWeek f sh sd sm sy } } := by
    rw [hstart]
    simp [dst_enable_start_phase, hsv, hfb]
  have hs2 : dst_enable_end_phase env.convertDayOfWeek f env.end_fetch
      { dst_data_flag := DST_VALID_START_TIME_FLAG
      , dst_time := { s.dst_time with
          startDst := build_dst_rule env.convertDayOfWeek f sh sd sm sy } } =
      { dst_data_flag := DST_VALID_END_TIME_FLAG
      , dst_time :=
        { startDst := build_dst_rule env.convertDayOfWeek f sh sd sm sy
        , stopDst := build_dst_rule env.convertDayOfWeek f eh ed em ey } } := by
    rw [hend]
    simp [dst_enable_end_phase, hev, hfb]
  rw [hmain, hs1, hs2]
  constructor
  · intro hok
    rw [hok]
    simp [dst_commit_phase]
  · intro hok
    rw [hok]
    simp [dst_commit_phase]

/-- Witness for the claim C2 theorem: a concrete fixed-format enable flow
from the Disabled state, with both the successful and the failing commit
branch instantiated. -/
theorem dst_enable_flow_spec_witness :
    validate_date_time 0 0 2 10 3 2025 = true ∧
    (set_dst_feature
       ⟨UartResult.ok '1', UartResult.ok '1', DstFetch.ok 3 2 10 3 2025,
        DstFetch.ok 3 2 3 11 2025, true, fun _ _ _ => 1⟩
       ⟨0, null_dst_time⟩).dst_data_flag = DST_ENABLED_FLAG ∧
    (set_dst_feature
       ⟨UartResult.ok '1', UartResult.ok '1', DstFetch.ok 3 2 10 3 2025,
        DstFetch.ok 3 2 3 11 2025, true, fun _ _ _ => 1⟩
       ⟨0, null_dst_time⟩).committed =
      some { startDst := build_dst_rule (fun _ _ _ => 1) '1' 2 10 3 2025
           , stopDst := build_dst_rule (fun _ _ _ => 1) '1' 2 3 11 2025 } ∧
    (set_dst_feature
       ⟨UartResult.ok '1', UartResult.ok '1', DstFetch.ok 3 2 10 3 2025,
        DstFetch.ok 3 2 3 11 2025, false, fun _ _ _ => 1⟩
       ⟨0, null_dst_time⟩).fatal = true := by
  refine ⟨by decide, ?_, ?_, ?_⟩
  · exact ((dst_enable_flow_spec
      ⟨UartResult.ok '1', UartResult.ok '1', DstFetch.ok 3 2 10 3 2025,
       DstFetch.ok 3 2 3 11 2025, true, fun _ _ _ => 1⟩
      ⟨0, null_dst_time⟩ '1' 2 10 3 2025 2 3 11 2025 rfl rfl rfl
      (Or.inl rfl) rfl (by decide) rfl (by decide)).1 rfl).1
  · exact ((dst_enable_flow_spec
      ⟨UartResult.ok '1', UartResult.ok '1', DstFetch.ok 3 2 10 3 2025,
       DstFetch.ok 3 2 3 11 2025, true, fun _ _ _ => 1⟩
      ⟨0, null_dst_time⟩ '1' 2 10 3 2025 2 3 11 2025 rfl rfl rfl
      (Or.inl rfl) rfl (by decide) rfl (by decide)).1 rfl).2
  · exact (dst_enable_flow_spec
      ⟨UartResult.ok '1', UartResult.ok '1', DstFetch.ok 3 2 10 3 2025,
       DstFetch.ok 3 2 3 11 2025, false, fun _ _ _ => 1⟩
      ⟨0, null_dst_time⟩ '1' 2 10 3 2025 2 3 11 2025 rfl rfl rfl
      (Or.inl rfl) rfl (by decide) rfl (by decide)).2 rfl

/-- Claim C3 counterexample: in the set-time flow the commit to
`Cy_RTC_SetDateAndTimeDirect` is made (the collaborator is called with
the validated values) and rejected, yet `handle_error` is not invoked —
refuting the claim that every rejected commit is fatal. -/
theorem set_time_commit_failure_not_fatal :
    (set_new_time ⟨TimeFetch.ok 5 10 30 0 15 6 2025, false⟩ 2000).committed =
      some (0, 30, 10, 15, 6, 25) ∧
    (set_new_time ⟨TimeFetch.ok 5 10 30 0 15 6 2025, false⟩ 2000).fatal =
      false := by decide

/-- Claim C3 (amended): a rejected `Cy_RTC_EnableDstTime` commit in the
DST enable/disable flows always reaches `handle_error`, but a rejected
`Cy_RTC_SetDateAndTimeDirect` commit in the set-time flow never does —
the set-time flow has no failure branch and merely skips the success
message. -/
theorem dst_commit_rejection_fatal (env : DstEnv) (s : DstState)
    (env2 : SetTimeEnv) (century : Nat)
    (hfail : env.enable_dst_ok = false)
    (hcall : (set_dst_feature env s).committed.isSome = true) :
    (set_dst_feature env s).fatal = true ∧
    (set_new_time env2 century).fatal = false := by
  constructor
  · rcases env with ⟨cmd, fmtr, sf, ef, ok, dow⟩
    simp only at hfail
    subst hfail
    cases cmd with
    | timeout => simp [set_dst_feature, dst_no_change] at hcall
    | ok c =>
      by_cases h1 : (c == RTC_CMD_ENABLE_DST) = true
      · simp only [set_dst_feature, h1, if_true] at hcall ⊢
        cases fmtr with
        | timeout => simp [dst_no_change] at hcall
        | ok fmt =>
          simp only at hcall ⊢
          by_cases h2 : ((dst_enable_end_phase dow fmt ef
              (dst_enable_start_phase dow fmt sf s)).dst_data_flag ==
              DST_VALID_END_TIME_FLAG) = true
          · simp [dst_commit_phase, h2]
          · simp [dst_commit_phase, h2] at hcall
      · by_cases h3 : (c == RTC_CMD_DISABLE_DST) = true
        · simp [set_dst_feature, h1, h3, dst_disable_branch]
        · simp [set_dst_feature, h1, h3, dst_no_change] at hcall
  · rcases env2 with ⟨fetch, ok2⟩
    cases fetch with
    | timeout => rfl
    | ok sc hour min sec mday month year =>
      simp only [set_new_time]
      split
      · rfl
      · split <;> rfl

/-- Witness for the amended claim C3 theorem: a concrete disable flow
whose commit the collaborator rejects, next to a concrete set-time call. -/
theorem dst_commit_rejection_fatal_witness :
    (set_dst_feature
       ⟨UartResult.ok '2', UartResult.timeout, DstFetch.timeout,
        DstFetch.timeout, false, fun _ _ _ => 1⟩
       ⟨0, null_dst_time⟩).fatal = true ∧
    (set_new_time ⟨TimeFetch.timeout, true⟩ 2000).fatal = false :=
  dst_commit_rejection_fatal
    ⟨UartResult.ok '2', UartResult.timeout, DstFetch.timeout,
     DstFetch.timeout, false, fun _ _ _ => 1⟩
    ⟨0, null_dst_time⟩ ⟨TimeFetch.timeout, true⟩ 2000 rfl (by decide)

/-- Claim C4: the disable action, from any state, resets both rule points
to the canonical null rule, commits it, and on success sets the state to
Disabled; a second disable produces the identical outcome (idempotence). -/
theorem dst_disable_spec (env env2 : DstEnv) (s : DstState)
    (hcmd : env.dst_cmd = UartResult.ok RTC_CMD_DISABLE_DST)
    (hok : env.enable_dst_ok = true)
    (hcmd2 : env2.dst_cmd = UartResult.ok RTC_CMD_DISABLE_DST)
    (hok2 : env2.enable_dst_ok = true) :
    (set_dst_feature env s).dst_time = null_dst_time ∧
    (set_dst_feature env s).committed = some null_dst_time ∧
    (set_dst_feature env s).dst_data_flag = DST_DISABLED_FLAG ∧
    set_dst_feature env2 ⟨(set_dst_feature env s).dst_data_flag,
                          (set_dst_feature env s).dst_time⟩ =
      set_dst_feature env s := by
  have h1 : set_dst_feature env s =
      { dst_data_flag := DST_DISABLED_FLAG, dst_time := null_dst_time
      , committed := some null_dst_time, fatal := false } := by
    simp only [set_dst_feature, hcmd, disable_ne_enable, disable_beq_self,
               if_true, Bool.false_eq_true, if_false, dst_disable_branch,
               hok]
  have h2 : set_dst_feature env2
      (⟨DST_DISABLED_FLAG, null_dst_time⟩ : DstState) =
      { dst_data_flag := DST_DISABLED_FLAG, dst_time := null_dst_time
      , committed := some null_dst_time, fatal := false } := by
    simp only [set_dst_feature, hcmd2, disable_ne_enable, disable_beq_self,
               if_true, Bool.false_eq_true, if_false, dst_disable_branch,
               hok2]
  rw [h1]
  exact ⟨rfl, rfl, rfl, h2⟩

/-- Witness for the claim C4 theorem: disabling from the Active state
with a non-null committed schedule, twice. -/
theorem dst_disable_spec_witness :
    (set_dst_feature
       ⟨UartResult.ok '2', UartResult.timeout, DstFetch.timeout,
        DstFetch.timeout, true, fun _ _ _ => 1⟩
       ⟨3, { startDst := ⟨.CY_RTC_DST_FIXED, 2, 10, 1, 1, 3⟩
           , stopDst := ⟨.CY_RTC_DST_FIXED, 2, 3, 1, 1, 11⟩ }⟩).dst_time =
      null_dst_time ∧
    (set_dst_feature
       ⟨UartResult.ok '2', UartResult.timeout, DstFetch.timeout,
        DstFetch.timeout, true, fun _ _ _ => 1⟩
       ⟨3, { startDst := ⟨.CY_RTC_DST_FIXED, 2, 10, 1, 1, 3⟩
           , stopDst := ⟨.CY_RTC_DST_FIXED, 2, 3, 1, 1, 11⟩ }⟩).committed =
      some null_dst_time ∧
    (set_dst_feature
       ⟨UartResult.ok '2', UartResult.timeout, DstFetch.timeout,
        DstFetch.timeout, true, fun _ _ _ => 1⟩
       ⟨3, { startDst := ⟨.CY_RTC_DST_FIXED, 2, 10, 1, 1, 3⟩
           , stopDst := ⟨.CY_RTC_DST_FIXED, 2, 3, 1, 1, 11⟩ }⟩).dst_data_flag =
      DST_DISABLED_FLAG ∧
    set_dst_feature
      ⟨UartResult.ok '2', UartResult.timeout, DstFetch.timeout,
       DstFetch.timeout, true, fun _ _ _ => 1⟩
      ⟨(set_dst_feature
          ⟨UartResult.ok '2', UartResult.timeout, DstFetch.timeout,
           DstFetch.timeout, true, fun _ _ _ => 1⟩
          ⟨3, { startDst := ⟨.CY_RTC_DST_FIXED, 2, 10, 1, 1, 3⟩
              , stopDst := ⟨.CY_RTC_DST_FIXED, 2, 3, 1, 1, 11⟩ }⟩).dst_data_flag,
       (set_dst_feature
          ⟨UartResult.ok '2', UartResult.timeout, DstFetch.timeout,
           DstFetch.timeout, true, fun _ _ _ => 1⟩
          ⟨3, { startDst := ⟨.CY_RTC_DST_FIXED, 2, 10, 1, 1, 3⟩
              , stopDst := ⟨.CY_RTC_DST_FIXED, 2, 3, 1, 1, 11⟩ }⟩).dst_time⟩ =
      set_dst_feature
        ⟨UartResult.ok '2', UartResult.timeout, DstFetch.timeout,
         DstFetch.timeout, true, fun _ _ _ => 1⟩
        ⟨3, { startDst := ⟨.CY_RTC_DST_FIXED, 2, 10, 1, 1, 3⟩
            , stopDst := ⟨.CY_RTC_DST_FIXED, 2, 3, 1, 1, 11⟩ }⟩ :=
  dst_disable_spec
    ⟨UartResult.ok '2', UartResult.timeout, DstFetch.timeout,
     DstFetch.timeout, true, fun _ _ _ => 1⟩
    ⟨UartResult.ok '2', UartResult.timeout, DstFetch.timeout,
     DstFetch.timeout, true, fun _ _ _ => 1⟩
    ⟨3, { startDst := ⟨.CY_RTC_DST_FIXED, 2, 10, 1, 1, 3⟩
        , stopDst := ⟨.CY_RTC_DST_FIXED, 2, 3, 1, 1, 11⟩ }⟩
    rfl rfl rfl rfl

/-- Claim C5: if a valid start rule was captured and the end-time prompt
then times out, the flag stays at the valid-start-captured value (no
advance, no rollback), the end rule point is untouched and no commit
occurs. -/
theorem dst_end_timeout_keeps_flag (env : DstEnv) (s : DstState) (f : Char)
    (sh sd sm sy : Nat)
    (hcmd : env.dst_cmd = UartResult.ok RTC_CMD_ENABLE_DST)
    (hfmt : env.fmt = UartResult.ok f)
    (hf : f = FIXED_DST_FORMAT ∨ f = RELATIVE_DST_FORMAT)
    (hstart : env.start_fetch =
      DstFetch.ok MIN_SPACE_KEY_COUNT_DST_TIME sh sd sm sy)
    (hsv : validate_date_time 0 0 sh sd sm sy = true)
    (hend : env.end_fetch = DstFetch.timeout) :
    (set_dst_feature env s).dst_data_flag = DST_VALID_START_TIME_FLAG ∧
    (set_dst_feature env s).dst_time.stopDst = s.dst_time.stopDst ∧
    (set_dst_feature env s).committed = none ∧
    (set_dst_feature env s).fatal = false := by
  have hfb : (f == FIXED_DST_FORMAT || f == RELATIVE_DST_FORMAT) = true := by
    rcases hf with h | h <;> simp [h]
  have hmain : set_dst_feature env s =
      dst_commit_phase env.enable_dst_ok
        (dst_enable_end_phase env.convertDayOfWeek f env.end_fetch
          (dst_enable_start_phase env.convertDayOfWeek f env.start_fetch s)) := by
    simp only [set_dst_feature, hcmd, hfmt, enable_beq_self, if_true]
  have hs1 : dst_enable_start_phase env.convertDayOfWeek f env.start_fetch s =
      { dst_data_flag := DST_VALID_START_TIME_FLAG
      , dst_time := { s.dst_time with
          startDst := build_dst_rule env.convertDayOfWeek f sh sd sm sy } } := by
    rw [hstart]
    simp [dst_enable_start_phase, hsv, hfb]
  rw [hmain, hs1, hend, dst_enable_end_phase_timeout]
  simp [dst_commit_phase, DST_VALID_START_TIME_FLAG, DST_VALID_END_TIME_FLAG]

/-- Witness for the claim C5 theorem: a concrete enable flow whose
end-time prompt times out after a valid start capture. -/
theorem dst_end_timeout_keeps_flag_witness :
    (set_dst_feature
       ⟨UartResult.ok '1', UartResult.ok '1', DstFetch.ok 3 2 10 3 2025,
        DstFetch.timeout, true, fun _ _ _ => 1⟩
       ⟨0, null_dst_time⟩).dst_data_flag = DST_VALID_START_TIME_FLAG ∧
    (set_dst_feature
       ⟨UartResult.ok '1', UartResult.ok '1', DstFetch.ok 3 2 10 3 2025,
        DstFetch.timeout, true, fun _ _ _ => 1⟩
       ⟨0, null_dst_time⟩).dst_time.stopDst = null_dst_time.stopDst ∧
    (set_dst_feature
       ⟨UartResult.ok '1', UartResult.ok '1', DstFetch.ok 3 2 10 3 2025,
        DstFetch.timeout, true, fun _ _ _ => 1⟩
       ⟨0, null_dst_time⟩).committed = none ∧
    (set_dst_feature
       ⟨UartResult.ok '1', UartResult.ok '1', DstFetch.ok 3 2 10 3 2025,
        DstFetch.timeout, true, fun _ _ _ => 1⟩
       ⟨0, null_dst_time⟩).fatal = false :=
  dst_end_timeout_keeps_flag
    ⟨UartResult.ok '1', UartResult.ok '1', DstFetch.ok 3 2 10 3 2025,
     DstFetch.timeout, true, fun _ _ _ => 1⟩
    ⟨0, null_dst_time⟩ '1' 2 10 3 2025 rfl rfl (Or.inl rfl) rfl
    (by decide) rfl

/-- Claim C8: in the set-time flow, a wrong separator count or a failed
calendar validation prints the invalid-values message and mutates
nothing: no commit, `century_data` unchanged. -/
theorem set_new_time_invalid_no_mutation (env : SetTimeEnv) (century : Nat)
    (sc hour min sec mday month year : Nat)
    (hfetch : env.fetch = TimeFetch.ok sc hour min sec mday month year)
    (hbad : sc ≠ MIN_SPACE_KEY_COUNT_NEW_TIME ∨
            validate_date_time sec min hour mday month year = false) :
    (set_new_time env century).printed_invalid = true ∧
    (set_new_time env century).committed = none ∧
    (set_new_time env century).century_data = century := by
  rcases env with ⟨fetch, ok2⟩
  simp only at hfetch
  subst hfetch
  rcases hbad with hb | hb
  · simp [set_new_time, hb]
  · by_cases hsc : sc ≠ MIN_SPACE_KEY_COUNT_NEW_TIME
    · simp [set_new_time, hsc]
    · simp [set_new_time, hsc, hb]

/-- Witness for the claim C8 theorem: a concrete 4-separator input and a
concrete out-of-range input, both leaving the state untouched. -/
theorem set_new_time_invalid_no_mutation_witness :
    ((set_new_time ⟨TimeFetch.ok 4 10 30 0 15 6 2025, true⟩ 2000).printed_invalid
       = true ∧
     (set_new_time ⟨TimeFetch.ok 4 10 30 0 15 6 2025, true⟩ 2000).committed
       = none ∧
     (set_new_time ⟨TimeFetch.ok 4 10 30 0 15 6 2025, true⟩ 2000).century_data
       = 2000) ∧
    ((set_new_time ⟨TimeFetch.ok 5 10 30 0 32 6 2025, true⟩ 2000).printed_invalid
       = true ∧
     (set_new_time ⟨TimeFetch.ok 5 10 30 0 32 6 2025, true⟩ 2000).committed
       = none ∧
     (set_new_time ⟨TimeFetch.ok 5 10 30 0 32 6 2025, true⟩ 2000).century_data
       = 2000) :=
  ⟨set_new_time_invalid_no_mutation ⟨TimeFetch.ok 4 10 30 0 15 6 2025, true⟩
     2000 4 10 30 0 15 6 2025 rfl (Or.inl (by decide)),
   set_new_time_invalid_no_mutation ⟨TimeFetch.ok 5 10 30 0 32 6 2025, true⟩
     2000 5 10 30 0 32 6 2025 rfl (Or.inr (by decide))⟩

/-- Claim C10: if a previous enable flow left the static flag at the
valid-start-captured value, a later enable flow whose own start input is
rejected (timeout, wrong separator count, or failed validation) still
runs the end-time phase, and on a valid end input commits a schedule
whose start rule is the stale one from the earlier flow. -/
theorem dst_stale_start_commit (env : DstEnv) (s : DstState) (f : Char)
    (eh ed em ey : Nat)
    (hflag : s.dst_data_flag = DST_VALID_START_TIME_FLAG)
    (hcmd : env.dst_cmd = UartResult.ok RTC_CMD_ENABLE_DST)
    (hfmt : env.fmt = UartResult.ok f)
    (hf : f = FIXED_DST_FORMAT ∨ f = RELATIVE_DST_FORMAT)
    (hrej : dst_start_rejected f env.start_fetch = true)
    (hend : env.end_fetch =
      DstFetch.ok MIN_SPACE_KEY_COUNT_DST_TIME eh ed em ey)
    (hev : validate_date_time 0 0 eh ed em ey = true)
    (hok : env.enable_dst_ok = true) :
    (set_dst_feature env s).dst_data_flag = DST_ENABLED_FLAG ∧
    (set_dst_feature env s).committed =
      some { startDst := s.dst_time.startDst
           , stopDst := build_dst_rule env.convertDayOfWeek f eh ed em ey } := by
  have hfb : (f == FIXED_DST_FORMAT || f == RELATIVE_DST_FORMAT) = true := by
    rcases hf with h | h <;> simp [h]
  have hmain : set_dst_feature env s =
      dst_commit_phase env.enable_dst_ok
        (dst_enable_end_phase env.convertDayOfWeek f env.end_fetch
          (dst_enable_start_phase env.convertDayOfWeek f env.start_fetch s)) := by
    simp only [set_dst_feature, hcmd, hfmt, enable_beq_self, if_true]
  have hs1 : dst_enable_start_phase env.convertDayOfWeek f env.start_fetch s
      = s := dst_enable_start_phase_of_rejected _ _ _ _ hrej
  have hs2 : dst_enable_end_phase env.convertDayOfWeek f env.end_fetch s =
      { dst_data_flag := DST_VALID_END_TIME_FLAG
      , dst_time := { s.dst_time with
          stopDst := build_dst_rule env.convertDayOfWeek f eh ed em ey } } := by
    rw [hend]
    simp [dst_enable_end_phase, hflag, hev, hfb]
  rw [hmain, hs1, hs2, hok]
  simp [dst_commit_phase]

/-- Witness for the claim C10 theorem: a flow whose own start input has a
wrong separator count, running against a stale captured start rule, with
a relative-format selector differing from the stale rule's format. -/
theorem dst_stale_start_commit_witness :
    (set_dst_feature
       ⟨UartResult.ok '1', UartResult.ok '1', DstFetch.ok 0 0 0 0 0,
        DstFetch.ok 3 2 3 11 2025, true, fun _ _ _ => 1⟩
       ⟨1, { startDst := ⟨.CY_RTC_DST_RELATIVE, 2, 1, 2, 1, 3⟩
           , stopDst := null_dst_rule }⟩).dst_data_flag = DST_ENABLED_FLAG ∧
    (set_dst_feature
       ⟨UartResult.ok '1', UartResult.ok '1', DstFetch.ok 0 0 0 0 0,
        DstFetch.ok 3 2 3 11 2025, true, fun _ _ _ => 1⟩
       ⟨1, { startDst := ⟨.CY_RTC_DST_RELATIVE, 2, 1, 2, 1, 3⟩
           , stopDst := null_dst_rule }⟩).committed =
      some { startDst := ⟨.CY_RTC_DST_RELATIVE, 2, 1, 2, 1, 3⟩
           , stopDst := build_dst_rule (fun _ _ _ => 1) '1' 2 3 11 2025 } :=
  dst_stale_start_commit
    ⟨UartResult.ok '1', UartResult.ok '1', DstFetch.ok 0 0 0 0 0,
     DstFetch.ok 3 2 3 11 2025, true, fun _ _ _ => 1⟩
    ⟨1, { startDst := ⟨.CY_RTC_DST_RELATIVE, 2, 1, 2, 1, 3⟩
        , stopDst := null_dst_rule }⟩ '1' 2 3 11 2025 rfl rfl rfl
    (Or.inl rfl) (by decide) rfl (by decide) rfl

end RtcBasics
